import Mathlib

/-!
Verification of the `gw` worktree manager against its specification.

Each Python function relevant to the checked properties is embedded as an
executable Lean definition, faithful to the source in `src/gw/`.  External
effects (git / gh subprocesses, prompts, the terminal clock) are passed in as
oracle records or explicit arguments so the orchestration logic itself stays
pure.  Machine integers are modelled as `Int`/`Nat` (Python integers are
unbounded, so no wrapping occurs) and fallible operations return
`Option`/`Except`.

The file is organised as definitions first, then the theorems.
-/

/-! # Definitions -/

/-! ## Python truthiness helpers -/

/-- Python truthiness of `str | None`: `None` and `""` are falsy. -/
def strTruthy : Option String → Bool
  | none => false
  | some s => s ≠ ""

/-- Python `a or b` on `str | None` values: `b` when `a` is falsy. -/
def pyOrStr (a b : Option String) : Option String :=
  if strTruthy a then a else b

/-! ## Check classification (`gh_ops.classify_checks`, `cli._classify_checks`) -/

/-- Result record of the check classifier (`gh_ops.ChecksInfo`; `cli._classify_checks`
returns the same data as a triple). -/
structure ChecksInfo where
  passed : Nat
  total : Nat
  state : Option String
deriving DecidableEq, Repr

/-- The loop body of `classify_checks`, threading the `passed`, `failed` and
`pending` accumulators exactly as the Python `for` loop does.  The
`state and state != "COMPLETED"` guard is evaluated before the
`conclusion is None` check, as in the source (setting a flag to `True` when a
condition holds is written as `||`). -/
def classifyAux : List (Option String × Option String) → Nat → Bool → Bool → Nat × Bool × Bool
  | [], passed, failed, pending => (passed, failed, pending)
  | (conclusion, state) :: rest, passed, failed, pending =>
    let pending := pending || (strTruthy state && !(state == some "COMPLETED"))
    match conclusion with
    | none => classifyAux rest passed failed true
    | some c =>
      if c = "SUCCESS" then classifyAux rest (passed + 1) failed pending
      else if c = "NEUTRAL" ∨ c = "SKIPPED" then classifyAux rest (passed + 1) failed pending
      else classifyAux rest passed true pending

/-- `gh_ops.classify_checks` / `cli._classify_checks` (the two copies are
line-for-line identical): classify per-check `(conclusion, state)` pairs into
`(passed, total, state)`. -/
def classify_checks (conclusions states : List (Option String)) : ChecksInfo :=
  let total := conclusions.length
  let acc := classifyAux (conclusions.zip states) 0 false false
  let status : Option String :=
    if total = 0 then none
    else if acc.2.1 then some "fail"
    else if acc.2.2 then some "pend"
    else some "ok"
  ⟨acc.1, total, status⟩

/-- A conclusion that counts as passed: `SUCCESS`, `NEUTRAL` or `SKIPPED`. -/
def isPassConclusion : Option String → Bool
  | none => false
  | some c => c = "SUCCESS" ∨ c = "NEUTRAL" ∨ c = "SKIPPED"

/-- A conclusion that counts as a failure: non-null and not passing. -/
def isFailConclusion (c : Option String) : Bool :=
  c.isSome && !isPassConclusion c

/-- The claim's pending rule, word for word: state differs from `COMPLETED`
or conclusion is null. -/
def claimPending (c s : Option String) : Bool :=
  !(s == some "COMPLETED") || c.isNone

/-- The code's pending rule: state truthy (non-null, non-empty) and different
from `COMPLETED`, or conclusion null. -/
def codePending (c s : Option String) : Bool :=
  (strTruthy s && !(s == some "COMPLETED")) || c.isNone

/-- Classifier written from the claim's words, for comparison with
`classify_checks`. -/
def specClassifyChecks (conclusions states : List (Option String)) : ChecksInfo :=
  let pairs := conclusions.zip states
  let total := conclusions.length
  let passed := (pairs.filter fun p => isPassConclusion p.1).length
  let failed := pairs.any fun p => isFailConclusion p.1
  let pending := pairs.any fun p => claimPending p.1 p.2
  ⟨passed, total,
    if total = 0 then none
    else if failed then some "fail"
    else if pending then some "pend"
    else some "ok"⟩

/-- Classifier written from the amended claim's words: a check is pending when
its state is truthy and differs from `COMPLETED`, or its conclusion is null. -/
def specClassifyChecksAmended (conclusions states : List (Option String)) : ChecksInfo :=
  let pairs := conclusions.zip states
  let total := conclusions.length
  let passed := (pairs.filter fun p => isPassConclusion p.1).length
  let failed := pairs.any fun p => isFailConclusion p.1
  let pending := pairs.any fun p => codePending p.1 p.2
  ⟨passed, total,
    if total = 0 then none
    else if failed then some "fail"
    else if pending then some "pend"
    else some "ok"⟩

/-! ## Cache key (`services.make_cache_key`, `cli._cache_key`) -/

/-- `services.make_cache_key` / `cli._cache_key`: the branch when truthy and
not the detached sentinel, else `"detached:" + head`. -/
def make_cache_key (branch head : String) : String :=
  if branch ≠ "" ∧ branch ≠ "(detached)" then branch
  else "detached:" ++ head

/-! ## Relative time (`tui.relative_time`, `cli._relative_time`) -/

/-- `tui.relative_time` / `cli._relative_time` (identical copies), with the
clock `int(time.time())` passed explicitly as `now`; the local variable
`delta = now - ts` is inlined. -/
def relative_time (now ts : Int) : String :=
  if ts ≤ 0 then "unknown"
  else if now - ts < 60 then toString (now - ts) ++ "s ago"
  else if now - ts < 3600 then toString ((now - ts) / 60) ++ "m ago"
  else if now - ts < 86400 then toString ((now - ts) / 3600) ++ "h ago"
  else if now - ts < 604800 then toString ((now - ts) / 86400) ++ "d ago"
  else if now - ts < 2629800 then toString ((now - ts) / 604800) ++ "w ago"
  else toString ((now - ts) / 2629800) ++ "mo ago"

/-! ## Cell fitting (`ui._fit`) -/

/-- `ui._fit`: truncate `text` to `width` (with a `...` marker when there is
room for it), or left-justify with spaces.  Python strings are sequences of
code points, modelled as `List Char`. -/
def fit (text : List Char) (width : Nat) : List Char :=
  if width < text.length then
    if width ≤ 3 then text.take width
    else text.take (width - 3) ++ ['.', '.', '.']
  else text ++ List.replicate (width - text.length) ' '

/-! ## Data model (`models.Worktree`, `models.WorktreeStatus`) -/

/-- Modelled from the spec: the `Worktree` dataclass is imported from
`gw.models` by `git.py` but is absent from `src/gw/models.py`; its fields
follow §3 of the spec ("Worktree (raw)") and every construction site in
`git.list_worktrees`. -/
structure Worktree where
  path : String
  branch : Option String
  head : Option String
deriving DecidableEq, Repr

/-- Modelled from the spec: the `WorktreeStatus` dataclass is imported from
`gw.models` by `app.py`, `cache.py` and `ui.py` but is absent from
`src/gw/models.py`; its fields and nullability follow §3 of the spec and
every construction site in `app.py` / `cache.py` (fourteen fields, no
timestamp column). -/
structure WorktreeStatus where
  path : String
  branch : Option String
  last_commit_ts : Int
  upstream : Option String
  ahead : Option Int
  behind : Option Int
  pr_number : Option Int
  pr_title : Option String
  pr_state : Option String
  pr_url : Option String
  pr_base : Option String
  changes_added : Option Int
  changes_deleted : Option Int
  changes_target : Option String
deriving DecidableEq, Repr

/-! ## Cache store (`cache.Cache`) -/

/-- One row of the `worktrees` table of `cache.py` (primary key `path`; every
other column nullable; `updated_at` is the timestamp column). -/
structure CacheRow where
  path : String
  branch : Option String
  last_commit_ts : Option Int
  upstream : Option String
  ahead : Option Int
  behind : Option Int
  pr_number : Option Int
  pr_title : Option String
  pr_state : Option String
  pr_url : Option String
  pr_base : Option String
  changes_added : Option Int
  changes_deleted : Option Int
  changes_target : Option String
  updated_at : Option Int
deriving DecidableEq, Repr

/-- The parameter tuple of `Cache.upsert_worktrees` for one status:
every `WorktreeStatus` field plus `updated_at = now`. -/
def statusToRow (now : Int) (s : WorktreeStatus) : CacheRow :=
  ⟨s.path, s.branch, some s.last_commit_ts, s.upstream, s.ahead, s.behind,
    s.pr_number, s.pr_title, s.pr_state, s.pr_url, s.pr_base,
    s.changes_added, s.changes_deleted, s.changes_target, some now⟩

/-- Python `row[2] or 0` on a nullable integer column: `0` for NULL, and `0`
stays `0`. -/
def pyOrZero : Option Int → Int
  | none => 0
  | some v => if v = 0 then 0 else v

/-- The row-to-status reconstruction of `Cache.load_worktrees` (the
`updated_at` column is not selected). -/
def rowToStatus (r : CacheRow) : WorktreeStatus :=
  ⟨r.path, r.branch, pyOrZero r.last_commit_ts, r.upstream, r.ahead, r.behind,
    r.pr_number, r.pr_title, r.pr_state, r.pr_url, r.pr_base,
    r.changes_added, r.changes_deleted, r.changes_target⟩

/-- `INSERT ... ON CONFLICT(path) DO UPDATE`: replace the row with the same
primary key in place, else append. -/
def upsertRow (table : List CacheRow) (r : CacheRow) : List CacheRow :=
  if table.any fun old => old.path == r.path then
    table.map fun old => if old.path == r.path then r else old
  else table ++ [r]

/-- `Cache.upsert_worktrees`: `executemany` of the upsert over the statuses,
with a single `now = int(time.time())`. -/
def upsert_worktrees (now : Int) (statuses : List WorktreeStatus)
    (table : List CacheRow) : List CacheRow :=
  statuses.foldl (fun t s => upsertRow t (statusToRow now s)) table

/-- `Cache.load_worktrees`: select every row and rebuild the statuses. -/
def load_worktrees (table : List CacheRow) : List WorktreeStatus :=
  table.map rowToStatus

/-! ## Status aggregator (`app.App`) -/

/-- The git calls `app.py` makes, as a pure oracle (repo root fixed):
`get_last_commit_ts`, `get_upstream`, `get_ahead_behind` (`none` = `GitError`),
`resolve_ref` (`none` = unresolvable), `get_diff_stats` (`none` = `GitError`). -/
structure GitEnv where
  last_commit_ts : String → Int
  get_upstream : String → Option String
  get_ahead_behind : String → String → Option (Int × Int)
  resolve_ref : String → Option String
  get_diff_stats : String → String → Option (Int × Int)

/-- One entry of `git.list_pull_requests`: the dict built from the gh JSON,
each field possibly `None` (`pr.get(...)`). -/
structure PrInfo where
  number : Option Int
  title : Option String
  state : Option String
  url : Option String
  base : Option String
deriving DecidableEq, Repr

/-- `upstream = git.get_upstream(root, wt.branch) if wt.branch else None`. -/
def wtUpstream (env : GitEnv) (wt : Worktree) : Option String :=
  if strTruthy wt.branch then env.get_upstream (wt.branch.getD "") else none

/-- The shared `ahead = behind = None; if wt.branch and upstream: try ...
except GitError: both None` block of `app.py`; `fallback` is the pair the
fields keep when the guard is false (`(None, None)` in the build stages, the
previous values in the remote stage). -/
def abFromGit (env : GitEnv) (branch upstream : Option String)
    (fallback : Option Int × Option Int) : Option Int × Option Int :=
  if strTruthy branch ∧ strTruthy upstream then
    match env.get_ahead_behind (branch.getD "") (upstream.getD "") with
    | some ab => (some ab.1, some ab.2)
    | none => (none, none)
  else fallback

/-- The label tried by the local stage:
`"main" if git.resolve_ref(root, "main") else default_branch`. -/
def localTargetLabel (env : GitEnv) (default_branch : String) : String :=
  if strTruthy (env.resolve_ref "main") then "main" else default_branch

/-- The label tried by `_build_status` / `_apply_remote_updates`:
`pr_base or ("main" if git.resolve_ref(root, "main") else default_branch)`. -/
def targetLabelWithBase (env : GitEnv) (pr_base : Option String)
    (default_branch : String) : String :=
  if strTruthy pr_base then pr_base.getD "" else localTargetLabel env default_branch

/-- `target_ref = resolve_ref(label) or resolve_ref("origin/" + label) or
resolve_ref(default_branch)`. -/
def resolveTargetRef (env : GitEnv) (label default_branch : String) : Option String :=
  pyOrStr (env.resolve_ref label)
    (pyOrStr (env.resolve_ref ("origin/" ++ label)) (env.resolve_ref default_branch))

/-- The shared `if target_ref: try diff ... except GitError` block: on success
all three change fields are set, on `GitError` the counts become null and the
target becomes `onErr` (null in the build stages, the previous value in the
remote stage), and with no resolvable ref the triple `keep` is returned. -/
def changesVsTarget (env : GitEnv) (branch label default_branch : String)
    (onErr : Option String) (keep : Option Int × Option Int × Option String) :
    Option Int × Option Int × Option String :=
  let target_ref := resolveTargetRef env label default_branch
  if strTruthy target_ref then
    match env.get_diff_stats (target_ref.getD "") branch with
    | some ad => (some ad.1, some ad.2, some label)
    | none => (none, none, onErr)
  else keep

/-- The change-triple of `App._build_local_status`: computed only for a truthy
branch, against `localTargetLabel` — the cached PR base is not consulted. -/
def localChanges (env : GitEnv) (wt : Worktree) (default_branch : String) :
    Option Int × Option Int × Option String :=
  if strTruthy wt.branch then
    changesVsTarget env (wt.branch.getD "") (localTargetLabel env default_branch)
      default_branch none (none, none, none)
  else (none, none, none)

/-- `App._placeholder_status` (the identical helper also lives in
`ui.run_worktree_screen`). -/
def placeholder_status (wt : Worktree) : WorktreeStatus :=
  ⟨wt.path, wt.branch, 0, none, none, none, none, none, none, none, none,
    none, none, none⟩

/-- `App._build_status`: the full (fetch-seeded) build used by the one-shot
refresh path. -/
def build_status (env : GitEnv) (wt : Worktree) (default_branch : String)
    (pr_by_branch : String → Option PrInfo) : WorktreeStatus :=
  let upstream := wtUpstream env wt
  let ab := abFromGit env wt.branch upstream (none, none)
  let pr_info := if strTruthy wt.branch then pr_by_branch (wt.branch.getD "") else none
  let pr_base := pr_info.bind PrInfo.base
  let ch :=
    if strTruthy wt.branch then
      changesVsTarget env (wt.branch.getD "")
        (targetLabelWithBase env pr_base default_branch) default_branch
        none (none, none, none)
    else (none, none, none)
  { path := wt.path
    branch := wt.branch
    last_commit_ts := env.last_commit_ts wt.path
    upstream := upstream
    ahead := ab.1
    behind := ab.2
    pr_number := pr_info.bind PrInfo.number
    pr_title := pr_info.bind PrInfo.title
    pr_state := pr_info.bind PrInfo.state
    pr_url := pr_info.bind PrInfo.url
    pr_base := pr_base
    changes_added := ch.1
    changes_deleted := ch.2.1
    changes_target := ch.2.2 }

/-- `App._build_local_status`: the no-network stage.  PR fields are carried
from the cached `base`; the change triple is `localChanges`. -/
def build_local_status (env : GitEnv) (wt : Worktree) (default_branch : String)
    (base : Option WorktreeStatus) : WorktreeStatus :=
  let upstream := wtUpstream env wt
  let ab := abFromGit env wt.branch upstream (none, none)
  let ch := localChanges env wt default_branch
  { path := wt.path
    branch := wt.branch
    last_commit_ts := env.last_commit_ts wt.path
    upstream := upstream
    ahead := ab.1
    behind := ab.2
    pr_number := match base with | some b => b.pr_number | none => none
    pr_title := match base with | some b => b.pr_title | none => none
    pr_state := match base with | some b => b.pr_state | none => none
    pr_url := match base with | some b => b.pr_url | none => none
    pr_base := match base with | some b => b.pr_base | none => none
    changes_added := ch.1
    changes_deleted := ch.2.1
    changes_target := ch.2.2 }

/-- `App._apply_remote_updates`: the network stage, folding fresh PR data into
the local-stage `status`. -/
def apply_remote_updates (env : GitEnv) (status : WorktreeStatus) (wt : Worktree)
    (default_branch : String) (pr_by_branch : String → Option PrInfo) : WorktreeStatus :=
  let pr_info := if strTruthy wt.branch then pr_by_branch (wt.branch.getD "") else none
  let pr_base := pr_info.bind PrInfo.base
  let upstream := status.upstream
  let ab := abFromGit env wt.branch upstream (status.ahead, status.behind)
  let ch :=
    if strTruthy wt.branch then
      changesVsTarget env (wt.branch.getD "")
        (targetLabelWithBase env pr_base default_branch) default_branch
        status.changes_target
        (status.changes_added, status.changes_deleted, status.changes_target)
    else (status.changes_added, status.changes_deleted, status.changes_target)
  { path := status.path
    branch := status.branch
    last_commit_ts := status.last_commit_ts
    upstream := upstream
    ahead := ab.1
    behind := ab.2
    pr_number := pr_info.bind PrInfo.number
    pr_title := pr_info.bind PrInfo.title
    pr_state := pr_info.bind PrInfo.state
    pr_url := pr_info.bind PrInfo.url
    pr_base := pr_base
    changes_added := ch.1
    changes_deleted := ch.2.1
    changes_target := ch.2.2 }

/-- The `ahead`/`behind` invariant of the spec: both null or both non-null. -/
def ab_inv (s : WorktreeStatus) : Prop :=
  s.ahead = none ↔ s.behind = none

/-- Concrete oracle for the C4 counterexample: every ref resolves to itself
and every diff succeeds with `(1, 2)`. -/
def envC4 : GitEnv :=
  ⟨fun _ => 0, fun _ => none, fun _ _ => none, fun r => some r, fun _ _ => some (1, 2)⟩

/-- Concrete worktree for the C4 counterexample. -/
def wtC4 : Worktree := ⟨"/repo/feat", some "feat", some "abc"⟩

/-- Concrete prior cached status for the C4 counterexample: its PR base is
`develop`. -/
def baseC4 : WorktreeStatus :=
  { placeholder_status wtC4 with pr_base := some "develop" }

/-! ## Worktree listing parsers (`git.list_worktrees`, `git_ops.parse_worktrees`)

Porcelain lines are modelled as `List Char` (a Python `str` is a sequence of
code points) and string methods as structural list functions, so that the
parsers evaluate by kernel reduction on concrete inputs. -/

/-- Python `line.partition(" ")` projected to `(before, after)`: split at the
first space; without one, `before` is the whole line and `after` empty. -/
def chPartitionSpace : List Char → List Char × List Char
  | [] => ([], [])
  | c :: cs =>
    if c = ' ' then ([], cs)
    else
      let r := chPartitionSpace cs
      (c :: r.1, r.2)

/-- `git._short_branch`: strip a leading `refs/heads/` (11 characters). -/
def shortBranch : Option (List Char) → Option (List Char)
  | none => none
  | some ref =>
    if "refs/heads/".data.isPrefixOf ref then some (ref.drop 11) else some ref

/-- The `current` dict of `git.list_worktrees` restricted to what is read:
whether any key was inserted (`if current:`) and the `worktree`, `branch` and
`HEAD` values. -/
structure PorcelainRecord where
  nonempty : Bool
  worktree : Option (List Char)
  branch : Option (List Char)
  head : Option (List Char)
deriving DecidableEq, Repr

/-- The fresh `current = {}`. -/
def emptyRecord : PorcelainRecord := ⟨false, none, none, none⟩

/-- `Worktree(path=current.get("worktree", ""), branch=_short_branch(current.get("branch")),
head=current.get("HEAD"))`. -/
def recordToWorktree (r : PorcelainRecord) : Worktree :=
  ⟨⟨r.worktree.getD []⟩, (shortBranch r.branch).map (⟨·⟩), r.head.map (⟨·⟩)⟩

/-- One iteration of the line loop of `git.list_worktrees`; `not line.strip()`
holds exactly when every character is whitespace. -/
def gitStepLine (acc : List Worktree × PorcelainRecord) (line : List Char) :
    List Worktree × PorcelainRecord :=
  if line.all Char.isWhitespace then
    if acc.2.nonempty then (acc.1 ++ [recordToWorktree acc.2], emptyRecord)
    else acc
  else
    let kv := chPartitionSpace line
    (acc.1,
      { nonempty := true
        worktree := if kv.1 = "worktree".data then some kv.2 else acc.2.worktree
        branch := if kv.1 = "branch".data then some kv.2 else acc.2.branch
        head := if kv.1 = "HEAD".data then some kv.2 else acc.2.head })

/-- The `entries` list of `git.list_worktrees` before filtering (loop plus the
trailing flush of a non-empty record). -/
def parsePorcelainEntries (lines : List (List Char)) : List Worktree :=
  let acc := lines.foldl gitStepLine ([], emptyRecord)
  if acc.2.nonempty then acc.1 ++ [recordToWorktree acc.2] else acc.1

/-- `git.list_worktrees` with the porcelain output given as `lines` and
`Path.resolve` given as the oracle `resolve`: drop each entry whose branch is
`None` and whose resolved path equals the resolved repo root. -/
def list_worktrees (resolve : String → String) (repo_root : String)
    (lines : List (List Char)) : List Worktree :=
  (parsePorcelainEntries lines).filter fun wt =>
    !(wt.branch.isNone && (resolve wt.path == resolve repo_root))

/-- `models.ParsedWorktree`: raw worktree data with empty-string defaults. -/
structure ParsedWorktree where
  path : String
  branch : String
  head : String
deriving DecidableEq, Repr

/-- The loop state of `git_ops.parse_worktrees` / `cli._parse_worktrees`. -/
structure GoState where
  worktrees : List ParsedWorktree
  path : List Char
  branch : List Char
  head : List Char
  is_bare : Bool
deriving DecidableEq, Repr

/-- Python `ref.removeprefix("refs/heads/")`. -/
def stripHeadsRef (ref : List Char) : List Char :=
  if "refs/heads/".data.isPrefixOf ref then ref.drop 11 else ref

/-- The flush of `git_ops.parse_worktrees`:
`if current_path and not current_is_bare and (current_branch or current_head)`. -/
def goFlush (st : GoState) : List ParsedWorktree :=
  if st.path ≠ [] ∧ st.is_bare = false ∧ (st.branch ≠ [] ∨ st.head ≠ []) then
    st.worktrees ++ [⟨⟨st.path⟩, ⟨st.branch⟩, ⟨st.head⟩⟩]
  else st.worktrees

/-- One iteration of the line loop of `git_ops.parse_worktrees`
(`cli._parse_worktrees` is line-for-line the same automaton);
`line.split(" ", 1)[1]` on a line with prefix `"worktree "` is `line[9:]`,
and similarly for the other keys. -/
def goStepLine (st : GoState) (line : List Char) : GoState :=
  if "worktree ".data.isPrefixOf line then
    { worktrees := goFlush st, path := line.drop 9, branch := [], head := [],
      is_bare := false }
  else if "branch ".data.isPrefixOf line then
    { st with branch := stripHeadsRef (line.drop 7) }
  else if "HEAD ".data.isPrefixOf line then
    { st with head := line.drop 5 }
  else if "detached".data.isPrefixOf line then
    { st with branch := "(detached)".data }
  else if "bare".data.isPrefixOf line then
    { st with is_bare := true }
  else st

/-- `git_ops.parse_worktrees` with the porcelain output given as `lines`. -/
def parse_worktrees (lines : List (List Char)) : List ParsedWorktree :=
  goFlush (lines.foldl goStepLine ⟨[], [], [], [], false⟩)

/-! ## TUI operation dispatch (`cli._run_tui._inner`, `tui.TuiApp` actions) -/

/-- `cli.WorktreeInfo` / `models.WorktreeInfo` (identical field lists): the
per-worktree row state of the TUI. -/
structure WorktreeInfo where
  path : String
  branch : String
  head : String
  ref_name : Option String
  cache_key : String
  last_commit_ts : Int
  pull : Int
  push : Int
  pull_push_validated : Bool
  has_upstream : Bool
  behind : Int
  ahead : Int
  additions : Int
  deletions : Int
  dirty : Bool
  pr_number : Option Int
  pr_state : Option String
  pr_base : Option String
  pr_url : Option String
  pr_validated : Bool
  checks_passed : Option Int
  checks_total : Option Int
  checks_state : Option String
  checks_validated : Bool
  changes_validated : Bool
deriving DecidableEq, Repr

/-- One external effect issued by a key handler: a git subprocess (with its
argument list and working directory) or the `_reload_items` round
(`_default_branch` plus `_load_worktrees`, which themselves spawn processes). -/
inductive Invocation where
  | git (args : List String) (cwd : Option String)
  | reload (selected_branch : Option String)
deriving DecidableEq, Repr

/-- The effect oracle of the TUI dispatch: `run_git` returns the stripped
stdout or, on `CalledProcessError`, the error text the spinner reports
(`stderr or stdout or "Unknown error"`); `prompt_yes_no` and `prompt_text`
are the modal prompts; `reload` is the item list `_load_worktrees` returns. -/
structure TuiEnv where
  run_git : List String → Option String → Except String String
  prompt_yes_no : String → Bool
  prompt_text : String → Option String
  reload : Option String → List WorktreeInfo

/-- The `_inner` loop state read and written by the key handlers. -/
structure TuiState where
  items : List WorktreeInfo
  selected : Nat
  status_line : Option String
deriving DecidableEq, Repr

/-- The four lifecycle keys `p`, `P` (shift), `D` (shift), `R` (shift). -/
inductive TuiOp where
  | pull
  | push
  | delete
  | rename
deriving DecidableEq, Repr

/-- The operation word used in the detached-worktree message. -/
def opName : TuiOp → String
  | .pull => "pull"
  | .push => "push"
  | .delete => "delete"
  | .rename => "rename"

/-- `cli._try_run_git`: `None` on failure. -/
def try_run_git (env : TuiEnv) (args : List String) (cwd : Option String) : Option String :=
  match env.run_git args cwd with
  | .ok out => some out
  | .error _ => none

/-- Python `str.split()` with no separator: split on whitespace runs, dropping
empty pieces. -/
def pySplitWs (s : String) : List String :=
  (s.split Char.isWhitespace).filter (fun p => p ≠ "")

/-- `cli._count_ahead_behind`, with the git calls it makes recorded; the outer
`none` is the uncaught `ValueError` of `int()` on non-numeric output. -/
def count_ahead_behind (env : TuiEnv) (repo_root left right : String) :
    Option (Int × Int) × List Invocation :=
  let args := ["rev-list", "--left-right", "--count", left ++ "..." ++ right]
  let res : Option (Int × Int) :=
    match try_run_git env args (some repo_root) with
    | none => some (0, 0)
    | some out =>
      if out = "" then some (0, 0)
      else
        match pySplitWs out with
        | [a, b] =>
          match a.toInt?, b.toInt? with
          | some x, some y => some (x, y)
          | _, _ => none
        | _ => some (0, 0)
  (res, [Invocation.git args (some repo_root)])

/-- `cli._has_unpushed_commits`: no upstream means `True`, else ahead > 0. -/
def has_unpushed_commits (env : TuiEnv) (repo_root branch : String) :
    Option Bool × List Invocation :=
  let args := ["rev-parse", "--abbrev-ref", branch ++ "@\x7bupstream\x7d"]
  let upstream := try_run_git env args (some repo_root)
  if strTruthy upstream then
    let r := count_ahead_behind env repo_root branch (upstream.getD "")
    (r.1.map fun ab => decide (0 < ab.1), Invocation.git args (some repo_root) :: r.2)
  else (some true, [Invocation.git args (some repo_root)])

/-- The return value of `cli._run_tui._reload_items`: the new cursor index
(0 for an empty list; the first row whose branch equals `selected_branch`
when given; else the old index clamped). -/
def reload_select (new_items : List WorktreeInfo) (selected_branch : Option String)
    (selected : Nat) : Nat :=
  if new_items.isEmpty then 0
  else
    let fallback := min selected (new_items.length - 1)
    if strTruthy selected_branch then
      match new_items.findIdx? (fun item => item.branch == selected_branch.getD "") with
      | some idx => idx
      | none => fallback
    else fallback

/-- Python `os.path.join(a, b)` for two components. -/
def pyPathJoin (a b : String) : String :=
  if b.startsWith "/" then b
  else if a.endsWith "/" then a ++ b
  else a ++ "/" ++ b

/-- The key dispatch of `cli._run_tui._inner` for `p`/`P`/`D`/`R` (the
corresponding `tui.TuiApp` actions guard identically), as one pure step:
given the oracle and the loop state, produce the successor state and the
external effects issued, or `none` for the uncaught `IndexError`/`ValueError`
paths.  Each branch mirrors the source: empty-list check, detached check,
spinner action with error reporting, `_reload_items` on success. -/
def handle_key (env : TuiEnv) (repo_root : String) (op : TuiOp) (st : TuiState) :
    Option (TuiState × List Invocation) :=
  if st.items.isEmpty then
    some ({ st with status_line := some "No worktrees available." }, [])
  else
    match st.items[st.selected]? with
    | none => none
    | some current =>
      match op with
      | .pull =>
        match current.ref_name with
        | none =>
          some ({ st with status_line := some "Cannot pull a detached worktree." }, [])
        | some _ =>
          match env.run_git ["pull"] (some current.path) with
          | .error e =>
            some ({ st with status_line := some ("Pull failed: " ++ e) },
              [.git ["pull"] (some current.path)])
          | .ok _ =>
            let new_items := env.reload (some current.branch)
            some ({ items := new_items
                    selected := reload_select new_items (some current.branch) st.selected
                    status_line := some ("Pulled " ++ current.branch ++ ".") },
              [.git ["pull"] (some current.path), .reload (some current.branch)])
      | .push =>
        match current.ref_name with
        | none =>
          some ({ st with status_line := some "Cannot push a detached worktree." }, [])
        | some rn =>
          let args := if current.has_upstream then ["push"] else ["push", "-u", "origin", rn]
          match env.run_git args (some current.path) with
          | .error e =>
            some ({ st with status_line := some ("Push failed: " ++ e) },
              [.git args (some current.path)])
          | .ok _ =>
            let new_items := env.reload (some current.branch)
            some ({ items := new_items
                    selected := reload_select new_items (some current.branch) st.selected
                    status_line := some ("Pushed " ++ current.branch ++ ".") },
              [.git args (some current.path), .reload (some current.branch)])
      | .delete =>
        match current.ref_name with
        | none =>
          some ({ st with status_line := some "Cannot delete a detached worktree." }, [])
        | some rn =>
          let unp := has_unpushed_commits env repo_root rn
          match unp.1 with
          | none => none
          | some unpushed =>
            let warn_parts :=
              (if current.dirty then ["working tree has uncommitted changes"] else []) ++
              (if unpushed then ["branch has unpushed commits"] else [])
            let prompt :=
              if warn_parts.isEmpty then "Delete " ++ current.branch ++ "?"
              else "Delete " ++ current.branch ++ " (" ++
                String.intercalate "; " warn_parts ++ ")?"
            if env.prompt_yes_no prompt then
              let args1 := ["worktree", "remove", "--force", current.path]
              match env.run_git args1 (some repo_root) with
              | .error e =>
                some ({ st with status_line := some ("Delete failed: " ++ e) },
                  unp.2 ++ [.git args1 (some repo_root)])
              | .ok _ =>
                let args2 := ["branch", "-D", rn]
                match env.run_git args2 (some repo_root) with
                | .error e =>
                  some ({ st with status_line := some ("Delete failed: " ++ e) },
                    unp.2 ++ [.git args1 (some repo_root), .git args2 (some repo_root)])
                | .ok _ =>
                  let new_items := env.reload none
                  some ({ items := new_items
                          selected := reload_select new_items none st.selected
                          status_line := some ("Deleted " ++ current.branch ++ ".") },
                    unp.2 ++ [.git args1 (some repo_root), .git args2 (some repo_root),
                      .reload none])
            else
              some ({ st with status_line := some "Delete cancelled." }, unp.2)
      | .rename =>
        match current.ref_name with
        | none =>
          some ({ st with status_line := some "Cannot rename a detached worktree." }, [])
        | some rn =>
          match env.prompt_text ("Rename " ++ current.branch ++ " to: ") with
          | none => some ({ st with status_line := some "Rename cancelled." }, [])
          | some nb =>
            if nb = "" then
              some ({ st with status_line := some "Rename cancelled." }, [])
            else
              let argsC := ["check-ref-format", "--branch", nb]
              match try_run_git env argsC (some repo_root) with
              | none =>
                some ({ st with status_line := some "Invalid branch name." },
                  [.git argsC (some repo_root)])
              | some _ =>
                let argsE := ["show-ref", "--verify", "refs/heads/" ++ nb]
                match try_run_git env argsE (some repo_root) with
                | some _ =>
                  some ({ st with status_line := some "Branch already exists." },
                    [.git argsC (some repo_root), .git argsE (some repo_root)])
                | none =>
                  let new_path := pyPathJoin repo_root nb
                  let argsM := ["branch", "-m", rn, nb]
                  match env.run_git argsM (some repo_root) with
                  | .error e =>
                    some ({ st with status_line := some ("Rename failed: " ++ e) },
                      [.git argsC (some repo_root), .git argsE (some repo_root),
                        .git argsM (some repo_root)])
                  | .ok _ =>
                    let argsV := ["worktree", "move", current.path, new_path]
                    match env.run_git argsV (some repo_root) with
                    | .error e =>
                      some ({ st with status_line := some ("Rename failed: " ++ e) },
                        [.git argsC (some repo_root), .git argsE (some repo_root),
                          .git argsM (some repo_root), .git argsV (some repo_root)])
                    | .ok _ =>
                      some ({ items := env.reload (some nb)
                              selected := reload_select (env.reload (some nb)) (some nb)
                                st.selected
                              status_line := some ("Renamed to " ++ nb ++ ".") },
                        [.git argsC (some repo_root), .git argsE (some repo_root),
                          .git argsM (some repo_root), .git argsV (some repo_root),
                          .reload (some nb)])

/-- Oracle for the C7 witness: every subprocess succeeds, prompts decline. -/
def envC7 : TuiEnv :=
  ⟨fun _ _ => .ok "", fun _ => false, fun _ => none, fun _ => []⟩

/-- A detached row (`ref_name` null) for the C7 witness. -/
def itemC7 : WorktreeInfo :=
  ⟨"/r/w", "abc123", "abc123", none, "detached:abc123", 0, 0, 0, false, false,
    0, 0, 0, 0, false, none, none, none, none, false, none, none, none, false, false⟩

/-- The C7 witness start state: the detached row is selected. -/
def stC7 : TuiState := ⟨[itemC7], 0, none⟩

/-! ## Refresh re-kick (`ui.run_worktree_screen`, `tui.TuiApp._start_refresh_thread`) -/

/-- The `refreshing` / `refresh_requested` pair of `ui._WorktreeScreenState`. -/
structure UiRefreshFlags where
  refreshing : Bool
  refresh_requested : Bool
deriving DecidableEq, Repr

/-- `ui.run_worktree_screen._kick_refresh`, under the state lock: a request
during a running cycle only sets the pending flag; otherwise the refreshing
flag is set and a worker starts (the returned Bool). -/
def ui_kick (s : UiRefreshFlags) : UiRefreshFlags × Bool :=
  if s.refreshing then ({ s with refresh_requested := true }, false)
  else ({ s with refreshing := true }, true)

/-- The end-of-cycle block of `ui._refresh_worker` (lines 533-540): clear
`refreshing`, consume `refresh_requested`, and run one more cycle (the
returned Bool) exactly when it was set. -/
def ui_cycle_end (s : UiRefreshFlags) : UiRefreshFlags × Bool :=
  ({ refreshing := s.refresh_requested, refresh_requested := false },
    s.refresh_requested)

/-- A refresh trigger or the completion of the running cycle. -/
inductive RefreshEvent where
  | request
  | cycle_done
deriving DecidableEq, Repr

/-- One scheduler step of the `ui.py` screen, counting started cycles. -/
def ui_step : UiRefreshFlags × Nat → RefreshEvent → UiRefreshFlags × Nat
  | (s, n), .request =>
    let r := ui_kick s
    (r.1, if r.2 then n + 1 else n)
  | (s, n), .cycle_done =>
    let r := ui_cycle_end s
    (r.1, if r.2 then n + 1 else n)

/-- Run a serialized event sequence against the `ui.py` scheduler from the
idle state, returning the final flags and the number of cycles run. -/
def ui_run (events : List RefreshEvent) : UiRefreshFlags × Nat :=
  events.foldl ui_step (⟨false, false⟩, 0)

/-- `tui.TuiApp._start_refresh_thread` / `cli._run_tui._start_refresh_thread`:
only a `running` flag; a request while running is dropped. -/
def tui_kick (running : Bool) : Bool × Bool :=
  if running then (running, false) else (true, true)

/-- The `finally: refresh_state["running"] = False` of the tui runner: no
pending flag is consulted, no cycle is re-kicked. -/
def tui_cycle_end (_running : Bool) : Bool × Bool :=
  (false, false)

/-- One scheduler step of the `tui.py`/`cli.py` refresh thread. -/
def tui_step : Bool × Nat → RefreshEvent → Bool × Nat
  | (r, n), .request =>
    let k := tui_kick r
    (k.1, if k.2 then n + 1 else n)
  | (r, n), .cycle_done =>
    let k := tui_cycle_end r
    (k.1, if k.2 then n + 1 else n)

/-- Run a serialized event sequence against the `tui.py` scheduler. -/
def tui_run (events : List RefreshEvent) : Bool × Nat :=
  events.foldl tui_step (false, 0)

/-! # Theorems -/

/-! ## C1 -/

lemma classifyAux_spec (l : List (Option String × Option String)) (p : Nat) (f pe : Bool) :
    classifyAux l p f pe =
      (p + (l.filter fun x => isPassConclusion x.1).length,
        f || l.any fun x => isFailConclusion x.1,
        pe || l.any fun x => codePending x.1 x.2) := by
  induction l generalizing p f pe with
  | nil => simp [classifyAux]
  | cons hd tl ih =>
    obtain ⟨c, s⟩ := hd
    cases c with
    | none =>
      have e : classifyAux ((none, s) :: tl) p f pe = classifyAux tl p f true := rfl
      rw [e, ih]
      simp [Prod.mk.injEq, List.filter_cons, List.any_cons, isPassConclusion,
        isFailConclusion, codePending]
    | some cv =>
      have e : classifyAux ((some cv, s) :: tl) p f pe =
          (if cv = "SUCCESS" then
            classifyAux tl (p + 1) f (pe || (strTruthy s && !(s == some "COMPLETED")))
          else if cv = "NEUTRAL" ∨ cv = "SKIPPED" then
            classifyAux tl (p + 1) f (pe || (strTruthy s && !(s == some "COMPLETED")))
          else classifyAux tl p true (pe || (strTruthy s && !(s == some "COMPLETED")))) := rfl
      by_cases hs : cv = "SUCCESS"
      · rw [e, if_pos hs, ih]
        have hp : isPassConclusion (some cv) = true := by simp [isPassConclusion, hs]
        have hf : isFailConclusion (some cv) = false := by simp [isFailConclusion, hp]
        simp [Prod.mk.injEq, List.filter_cons, List.any_cons, hp, hf, codePending,
          Bool.or_assoc]
        try omega
      · by_cases hn : cv = "NEUTRAL" ∨ cv = "SKIPPED"
        · rw [e, if_neg hs, if_pos hn, ih]
          have hp : isPassConclusion (some cv) = true := by
            rcases hn with h | h <;> simp [isPassConclusion, h]
          have hf : isFailConclusion (some cv) = false := by simp [isFailConclusion, hp]
          simp [Prod.mk.injEq, List.filter_cons, List.any_cons, hp, hf, codePending,
            Bool.or_assoc]
          try omega
        · rw [e, if_neg hs, if_neg hn, ih]
          have hn1 : cv ≠ "NEUTRAL" := fun h => hn (Or.inl h)
          have hn2 : cv ≠ "SKIPPED" := fun h => hn (Or.inr h)
          have hp : isPassConclusion (some cv) = false := by
            simp [isPassConclusion, hs, hn1, hn2]
          have hf : isFailConclusion (some cv) = true := by
            simp [isFailConclusion, hp]
          simp [Prod.mk.injEq, List.filter_cons, List.any_cons, hp, hf, codePending,
            Bool.or_assoc]

/-- C1 counterexample: on the single check `(SUCCESS, null state)` the code
returns overall `"ok"` — the null state is falsy, so the
`state != COMPLETED` branch never marks it pending — while the claim's rule
("pending when its state differs from COMPLETED") demands `"pend"`. -/
theorem c1_classify_checks_counterexample :
    classify_checks [some "SUCCESS"] [none] = ⟨1, 1, some "ok"⟩ ∧
    specClassifyChecks [some "SUCCESS"] [none] = ⟨1, 1, some "pend"⟩ ∧
    classify_checks [some "SUCCESS"] [none] ≠ specClassifyChecks [some "SUCCESS"] [none] := by
  refine ⟨by decide, by decide, by decide⟩

/-- C1 (amended): `classify_checks` returns `total` equal to the list length,
counts a check as passed exactly when its conclusion is SUCCESS, NEUTRAL or
SKIPPED, counts it as pending when its state is non-null, non-empty and
differs from COMPLETED or its conclusion is null, treats any other conclusion
as a failure, and derives the overall state null / "fail" / "pend" / "ok" in
that priority order; in particular the four examples of the claim hold. -/
theorem c1_classify_checks_spec :
    (∀ conclusions states : List (Option String),
      classify_checks conclusions states = specClassifyChecksAmended conclusions states) ∧
    classify_checks [] [] = ⟨0, 0, none⟩ ∧
    classify_checks [some "SUCCESS", some "FAILURE"] [some "COMPLETED", some "COMPLETED"] =
      ⟨1, 2, some "fail"⟩ ∧
    classify_checks [some "SUCCESS", none] [some "COMPLETED", some "IN_PROGRESS"] =
      ⟨1, 2, some "pend"⟩ ∧
    classify_checks [some "SKIPPED", some "NEUTRAL"] [some "COMPLETED", some "COMPLETED"] =
      ⟨2, 2, some "ok"⟩ := by
  refine ⟨fun conclusions states => ?_, by decide, by decide, by decide, by decide⟩
  have h := classifyAux_spec (conclusions.zip states) 0 false false
  simp only [classify_checks, specClassifyChecksAmended, h, Nat.zero_add, Bool.false_or]

/-! ## C2 -/

/-- C2: the cache key function is deterministic, returns the branch itself for
a non-empty non-`(detached)` branch, and `"detached:" + head` otherwise. -/
theorem c2_make_cache_key_spec (branch head : String) :
    (∀ b h : String, branch = b → head = h → make_cache_key branch head = make_cache_key b h) ∧
    (branch ≠ "" → branch ≠ "(detached)" → make_cache_key branch head = branch) ∧
    (branch = "" ∨ branch = "(detached)" → make_cache_key branch head = "detached:" ++ head) := by
  refine ⟨fun b h hb hh => by rw [hb, hh], fun h1 h2 => ?_, fun h => ?_⟩
  · simp [make_cache_key, h1, h2]
  · rcases h with h | h <;> simp [make_cache_key, h]

/-! ## C9 -/

/-- C9 counterexample: at age 0 with a positive timestamp (`now = ts = 1000`)
the formatter returns `"0s ago"`, not `"unknown"`; only a timestamp `≤ 0`
yields `"unknown"`. -/
theorem c9_relative_time_counterexample :
    relative_time 1000 1000 = "0s ago" ∧ relative_time 1000 1000 ≠ "unknown" := by
  refine ⟨by decide, by decide⟩

/-- C9 (amended): the formatter buckets ages at 60, 3600, 86400, 604800 and
2629800 seconds; a timestamp `≤ 0` gives "unknown", while an age of 0 on a
positive timestamp gives "0s ago" (not "unknown"); ages 59, 60, 3600, 86400,
604800 and 2629800 give "59s ago", "1m ago", "1h ago", "1d ago", "1w ago" and
"1mo ago". -/
theorem c9_relative_time_spec (now ts : Int) :
    (ts ≤ 0 → relative_time now ts = "unknown") ∧
    (0 < ts → now - ts < 60 → relative_time now ts = toString (now - ts) ++ "s ago") ∧
    (0 < ts → 60 ≤ now - ts → now - ts < 3600 →
      relative_time now ts = toString ((now - ts) / 60) ++ "m ago") ∧
    (0 < ts → 3600 ≤ now - ts → now - ts < 86400 →
      relative_time now ts = toString ((now - ts) / 3600) ++ "h ago") ∧
    (0 < ts → 86400 ≤ now - ts → now - ts < 604800 →
      relative_time now ts = toString ((now - ts) / 86400) ++ "d ago") ∧
    (0 < ts → 604800 ≤ now - ts → now - ts < 2629800 →
      relative_time now ts = toString ((now - ts) / 604800) ++ "w ago") ∧
    (0 < ts → 2629800 ≤ now - ts →
      relative_time now ts = toString ((now - ts) / 2629800) ++ "mo ago") ∧
    relative_time 1 1 = "0s ago" ∧
    relative_time 60 1 = "59s ago" ∧
    relative_time 61 1 = "1m ago" ∧
    relative_time 3601 1 = "1h ago" ∧
    relative_time 86401 1 = "1d ago" ∧
    relative_time 604801 1 = "1w ago" ∧
    relative_time 2629801 1 = "1mo ago" := by
  refine ⟨fun h => by simp [relative_time, h], ?_, ?_, ?_, ?_, ?_, ?_,
    by decide, by decide, by decide, by decide, by decide, by decide, by decide⟩ <;>
  · intros
    unfold relative_time
    split_ifs <;> first | rfl | omega

/-! ## C10 -/

/-- C10: `_fit` always returns exactly `width` characters; when the text fits
it is the text left-justified with spaces, and when it does not fit and the
width exceeds 3 the result ends with `"..."`. -/
theorem c10_fit_spec (text : List Char) (width : Nat) :
    (fit text width).length = width ∧
    (text.length ≤ width → fit text width = text ++ List.replicate (width - text.length) ' ') ∧
    (width < text.length → 3 < width →
      fit text width = text.take (width - 3) ++ ['.', '.', '.'] ∧
      ∃ pre, fit text width = pre ++ ['.', '.', '.']) := by
  refine ⟨?_, fun h => by simp [fit, Nat.not_lt.mpr h], fun h1 h2 => ?_⟩
  · by_cases h : width < text.length
    · by_cases h3 : width ≤ 3
      · simp [fit, h, h3, Nat.min_eq_left (Nat.le_of_lt h)]
      · simp only [fit, if_pos h, if_neg h3, List.length_append, List.length_take]
        have : width - 3 ≤ text.length := by omega
        simp [Nat.min_eq_left this]
        omega
    · simp [fit, h]
      omega
  · have h3 : ¬ width ≤ 3 := by omega
    exact ⟨by simp [fit, h1, h3], ⟨text.take (width - 3), by simp [fit, h1, h3]⟩⟩

/-! ## C3 -/

lemma rowToStatus_statusToRow (now : Int) (s : WorktreeStatus) :
    rowToStatus (statusToRow now s) = s := by
  cases s
  simp only [rowToStatus, statusToRow, pyOrZero, WorktreeStatus.mk.injEq, and_true, true_and]
  split <;> omega

lemma upsert_fresh (now : Int) (xs : List WorktreeStatus) (t : List CacheRow)
    (hfresh : ∀ s ∈ xs, ∀ r ∈ t, r.path ≠ s.path)
    (hnd : (xs.map WorktreeStatus.path).Nodup) :
    upsert_worktrees now xs t = t ++ xs.map (statusToRow now) := by
  induction xs generalizing t with
  | nil => simp [upsert_worktrees]
  | cons x xs ih =>
    have hx : (t.any fun old => old.path == (statusToRow now x).path) = false := by
      rw [List.any_eq_false]
      intro r hr
      simpa [statusToRow] using hfresh x (by simp) r hr
    have hrow : upsertRow t (statusToRow now x) = t ++ [statusToRow now x] := by
      unfold upsertRow
      rw [hx]
      simp
    have step : upsert_worktrees now (x :: xs) t =
        upsert_worktrees now xs (upsertRow t (statusToRow now x)) := rfl
    have hf2 : ∀ s ∈ xs, ∀ r ∈ t ++ [statusToRow now x], r.path ≠ s.path := by
      intro s hs r hr
      rcases List.mem_append.mp hr with h | h
      · exact hfresh s (List.mem_cons_of_mem _ hs) r h
      · have hr2 : r = statusToRow now x := by simpa using h
        subst hr2
        have hnotin : x.path ∉ xs.map WorktreeStatus.path :=
          (List.nodup_cons.mp (by simpa using hnd)).1
        intro hEq
        apply hnotin
        have hxp : (statusToRow now x).path = x.path := rfl
        rw [hxp] at hEq
        rw [hEq]
        exact List.mem_map_of_mem _ hs
    have hn2 : (xs.map WorktreeStatus.path).Nodup :=
      (List.nodup_cons.mp (by simpa using hnd)).2
    rw [step, hrow, ih (t ++ [statusToRow now x]) hf2 hn2]
    simp

/-- C3: starting from an empty table, upserting statuses with pairwise
distinct paths and loading the whole table returns exactly the input
statuses — every non-timestamp field is preserved (the `updated_at` column is
the only timestamp column and is not part of a `WorktreeStatus`). -/
theorem c3_cache_roundtrip (now : Int) (xs : List WorktreeStatus)
    (hnd : (xs.map WorktreeStatus.path).Nodup) :
    load_worktrees (upsert_worktrees now xs []) = xs := by
  rw [upsert_fresh now xs [] (by simp) hnd]
  unfold load_worktrees
  rw [List.nil_append, List.map_map]
  have hcomp : rowToStatus ∘ statusToRow now = id :=
    funext fun s => rowToStatus_statusToRow now s
  rw [hcomp, List.map_id]

/-- Concrete status for the C3 witness. -/
def statusA : WorktreeStatus :=
  ⟨"/r/a", some "a", 1, none, none, none, none, none, none, none, none,
    none, none, none⟩

/-- Concrete status for the C3 witness, with every nullable field set. -/
def statusB : WorktreeStatus :=
  ⟨"/r/b", some "b", 2, some "origin/b", some 1, some 2, some 7, some "t",
    some "OPEN", some "u", some "main", some 3, some 4, some "main"⟩

theorem c3_cache_roundtrip_witness :
    ([statusA, statusB].map WorktreeStatus.path).Nodup ∧
    load_worktrees (upsert_worktrees 99 [statusA, statusB] []) = [statusA, statusB] :=
  ⟨by decide, c3_cache_roundtrip 99 [statusA, statusB] (by decide)⟩

/-! ## C5 -/

lemma abFromGit_inv (env : GitEnv) (b u : Option String) (fb : Option Int × Option Int)
    (h : fb.1 = none ↔ fb.2 = none) :
    ((abFromGit env b u fb).1 = none ↔ (abFromGit env b u fb).2 = none) := by
  unfold abFromGit
  split_ifs
  · rcases hab : env.get_ahead_behind (b.getD "") (u.getD "") with _ | ab <;> simp [hab]
  · exact h

/-- C5: in every aggregator stage — placeholder, build, local and remote apply
(the latter given a base that already satisfies it) — `ahead` and `behind` are
both null or both non-null. -/
theorem c5_ahead_behind_inv (env : GitEnv) (wt : Worktree) (default_branch : String)
    (pr_by_branch : String → Option PrInfo) (base : Option WorktreeStatus)
    (st : WorktreeStatus) :
    ab_inv (placeholder_status wt) ∧
    ab_inv (build_status env wt default_branch pr_by_branch) ∧
    ab_inv (build_local_status env wt default_branch base) ∧
    (ab_inv st → ab_inv (apply_remote_updates env st wt default_branch pr_by_branch)) := by
  refine ⟨by simp [ab_inv, placeholder_status], ?_, ?_, fun h => ?_⟩
  · exact abFromGit_inv env wt.branch (wtUpstream env wt) (none, none) (by simp)
  · exact abFromGit_inv env wt.branch (wtUpstream env wt) (none, none) (by simp)
  · exact abFromGit_inv env wt.branch st.upstream (st.ahead, st.behind) h

/-! ## C4 -/

/-- The claim's target-label rule for the local stage: prefer the PR base
known from the prior cached status, else `"main"` if it resolves, else the
default branch. -/
def claimLocalTargetLabel (env : GitEnv) (cached_pr_base : Option String)
    (default_branch : String) : String :=
  if strTruthy cached_pr_base then cached_pr_base.getD ""
  else localTargetLabel env default_branch

/-- C4 counterexample: with a prior cached status whose PR base is `develop`,
an oracle under which both `develop` and `main` resolve and the diff succeeds,
the local stage still compares against `main` — `_build_local_status` never
reads `base.pr_base` for target resolution — while the claim's rule picks
`develop`. -/
theorem c4_local_target_counterexample :
    baseC4.pr_base = some "develop" ∧
    envC4.resolve_ref "develop" = some "develop" ∧
    claimLocalTargetLabel envC4 baseC4.pr_base "master" = "develop" ∧
    (build_local_status envC4 wtC4 "master" (some baseC4)).changes_target = some "main" ∧
    (build_local_status envC4 wtC4 "master" (some baseC4)).changes_target ≠
      some (claimLocalTargetLabel envC4 baseC4.pr_base "master") := by
  refine ⟨by decide, by decide, by decide, by decide, by decide⟩

/-- C4 (amended): the local stage resolves the comparison target without
consulting the cached PR base: its label is `"main"` when the ref `main`
resolves and the default branch otherwise; the label is resolved by trying
the local ref, then `origin/<label>`, then the default branch; when no ref
resolves (and when the diff fails) `changes_added`, `changes_deleted` and
`changes_target` are all null, and when the diff succeeds they carry the diff
counts and the label.  The change triple is therefore independent of the
`base` argument. -/
theorem c4_local_target_spec (env : GitEnv) (wt : Worktree) (default_branch : String)
    (base : Option WorktreeStatus) :
    (∀ base2 : Option WorktreeStatus,
      ((build_local_status env wt default_branch base).changes_added,
        (build_local_status env wt default_branch base).changes_deleted,
        (build_local_status env wt default_branch base).changes_target) =
      ((build_local_status env wt default_branch base2).changes_added,
        (build_local_status env wt default_branch base2).changes_deleted,
        (build_local_status env wt default_branch base2).changes_target)) ∧
    ((build_local_status env wt default_branch base).changes_target = none ∨
      (build_local_status env wt default_branch base).changes_target =
        some (localTargetLabel env default_branch)) ∧
    (strTruthy wt.branch = true →
      strTruthy (resolveTargetRef env (localTargetLabel env default_branch) default_branch)
          = false →
      (build_local_status env wt default_branch base).changes_added = none ∧
      (build_local_status env wt default_branch base).changes_deleted = none ∧
      (build_local_status env wt default_branch base).changes_target = none) ∧
    (∀ a d : Int, strTruthy wt.branch = true →
      strTruthy (resolveTargetRef env (localTargetLabel env default_branch) default_branch)
          = true →
      env.get_diff_stats
          ((resolveTargetRef env (localTargetLabel env default_branch) default_branch).getD "")
          (wt.branch.getD "") = some (a, d) →
      (build_local_status env wt default_branch base).changes_added = some a ∧
      (build_local_status env wt default_branch base).changes_deleted = some d ∧
      (build_local_status env wt default_branch base).changes_target =
        some (localTargetLabel env default_branch)) := by
  refine ⟨fun base2 => rfl, ?_, fun hb hr => ?_, fun a d hb hr hd => ?_⟩
  · simp only [build_local_status, localChanges, changesVsTarget]
    by_cases hb : strTruthy wt.branch
    · simp only [hb, if_pos]
      by_cases hr : strTruthy (resolveTargetRef env (localTargetLabel env default_branch)
        default_branch)
      · simp only [hr, if_pos]
        rcases env.get_diff_stats ((resolveTargetRef env (localTargetLabel env default_branch)
          default_branch).getD "") (wt.branch.getD "") with _ | ad <;> simp
      · simp [hr]
    · simp [hb]
  · simp [build_local_status, localChanges, changesVsTarget, hb, hr]
  · simp [build_local_status, localChanges, changesVsTarget, hb, hr, hd]

/-! ## C6 -/

lemma goFlush_pred (st : GoState)
    (h : ∀ pw ∈ st.worktrees, pw.path.data ≠ [] ∧ (pw.branch.data ≠ [] ∨ pw.head.data ≠ [])) :
    ∀ pw ∈ goFlush st, pw.path.data ≠ [] ∧ (pw.branch.data ≠ [] ∨ pw.head.data ≠ []) := by
  unfold goFlush
  split_ifs with hc
  · intro pw hpw
    rcases List.mem_append.mp hpw with h1 | h1
    · exact h pw h1
    · have he : pw = ⟨⟨st.path⟩, ⟨st.branch⟩, ⟨st.head⟩⟩ := by simpa using h1
      subst he
      exact ⟨hc.1, hc.2.2⟩
  · exact h

lemma goStepLine_pred (st : GoState) (line : List Char)
    (h : ∀ pw ∈ st.worktrees, pw.path.data ≠ [] ∧ (pw.branch.data ≠ [] ∨ pw.head.data ≠ [])) :
    ∀ pw ∈ (goStepLine st line).worktrees,
      pw.path.data ≠ [] ∧ (pw.branch.data ≠ [] ∨ pw.head.data ≠ []) := by
  unfold goStepLine
  split_ifs <;> first | exact goFlush_pred st h | exact h

lemma goFold_pred (lines : List (List Char)) (st : GoState)
    (h : ∀ pw ∈ st.worktrees, pw.path.data ≠ [] ∧ (pw.branch.data ≠ [] ∨ pw.head.data ≠ [])) :
    ∀ pw ∈ goFlush (lines.foldl goStepLine st),
      pw.path.data ≠ [] ∧ (pw.branch.data ≠ [] ∨ pw.head.data ≠ []) := by
  induction lines generalizing st with
  | nil => exact goFlush_pred st h
  | cons l ls ih => exact ih (goStepLine st l) (goStepLine_pred st l h)

/-- C6 counterexample: `git.list_worktrees` keeps a record tagged `bare` that
carries neither a `branch` nor a `HEAD` key (it only drops branch-null records
at the repo root), and `git_ops.parse_worktrees` keeps the branch-null record
at the repository root when it has a `HEAD` (it never compares against the
root) — both contradicting the claim's exclusions. -/
theorem c6_listing_counterexample :
    list_worktrees id "/root/repo" ["worktree /x".data, "bare".data] =
      [{ path := "/x", branch := none, head := none }] ∧
    parse_worktrees ["worktree /root/repo".data, "HEAD abc".data] =
      [{ path := "/root/repo", branch := "", head := "abc" }] := by
  refine ⟨by decide, by decide⟩

/-- C6 (amended): `git.list_worktrees` excludes exactly the records whose
branch is null and whose path resolves to the repository root (a `bare` tag is
ignored and key-less records elsewhere are kept), while `git_ops.parse_worktrees`
excludes records tagged `bare`, records with no worktree path and records
whose branch and head texts are both empty (a `detached` marker counts as a
branch), without comparing against the repository root. -/
theorem c6_listing_exclusions :
    (∀ (resolve : String → String) (repo_root : String) (lines : List (List Char))
        (wt : Worktree), wt ∈ list_worktrees resolve repo_root lines →
        ¬(wt.branch = none ∧ resolve wt.path = resolve repo_root)) ∧
    (∀ (lines : List (List Char)) (pw : ParsedWorktree), pw ∈ parse_worktrees lines →
        pw.path.data ≠ [] ∧ (pw.branch.data ≠ [] ∨ pw.head.data ≠ [])) ∧
    (∀ st : GoState, st.is_bare = true → goFlush st = st.worktrees) := by
  refine ⟨fun resolve repo_root lines wt hmem => ?_, fun lines pw hmem => ?_,
    fun st h => ?_⟩
  · have hcond := (List.mem_filter.mp hmem).2
    simp only [Bool.not_eq_true', Bool.and_eq_false_iff] at hcond
    rintro ⟨hb, hp⟩
    rcases hcond with h1 | h1
    · simp [Option.isNone_iff_eq_none, hb] at h1
    · simp [hp] at h1
  · exact goFold_pred lines ⟨[], [], [], [], false⟩ (by simp) pw hmem
  · simp [goFlush, h]

/-! ## C7 -/

/-- C7: for a selected worktree whose branch ref is null (detached HEAD), each
of the pull, push, delete and rename handlers sets the status line to
`"Cannot <op> a detached worktree."`, issues no subprocess or reload, and
leaves the item list and cursor unchanged. -/
theorem c7_detached_no_op (env : TuiEnv) (repo_root : String) (op : TuiOp)
    (st : TuiState) (current : WorktreeInfo)
    (hsel : st.items[st.selected]? = some current)
    (hdet : current.ref_name = none) :
    handle_key env repo_root op st =
      some ({ st with
        status_line := some ("Cannot " ++ opName op ++ " a detached worktree.") }, []) := by
  have hne : st.items.isEmpty = false := by
    cases hi : st.items with
    | nil => rw [hi] at hsel; simp at hsel
    | cons a l => simp
  cases op <;> simp [handle_key, hne, hsel, hdet, opName]

theorem c7_detached_no_op_witness :
    handle_key envC7 "/r" TuiOp.delete stC7 =
      some ({ stC7 with status_line := some "Cannot delete a detached worktree." }, []) :=
  c7_detached_no_op envC7 "/r" TuiOp.delete stC7 itemC7 rfl rfl

/-! ## C8 -/

/-- C8 counterexample: in the `tui.py`/`cli.py` scheduler a refresh request
during a running cycle is dropped outright — there is no pending flag and no
re-kick — so three rapid triggers run exactly one cycle, not the two the
claim requires. -/
theorem c8_rekick_counterexample :
    tui_run [.request, .request, .request, .cycle_done] = (false, 1) ∧
    (tui_run [.request, .request, .request, .cycle_done]).2 ≠ 2 := by
  refine ⟨by decide, by decide⟩

/-- C8 (amended): in the `ui.py` worktree screen the re-kick protocol holds —
a request during a running cycle sets the pending flag without starting a new
cycle, completion runs exactly one more cycle when the flag was set, and
three rapid triggers followed by the two completions run exactly two cycles —
while in the `tui.py`/`cli.py` scheduler a request during a running cycle is
dropped, so three rapid triggers run exactly one cycle. -/
theorem c8_rekick_spec :
    (∀ s : UiRefreshFlags, s.refreshing = true →
      ui_kick s = ({ s with refresh_requested := true }, false)) ∧
    (∀ s : UiRefreshFlags, s.refreshing = false →
      ui_kick s = ({ s with refreshing := true }, true)) ∧
    (∀ s : UiRefreshFlags,
      ui_cycle_end s = (⟨s.refresh_requested, false⟩, s.refresh_requested)) ∧
    ui_run [.request, .request, .request, .cycle_done, .cycle_done] = (⟨false, false⟩, 2) ∧
    tui_run [.request, .request, .request, .cycle_done] = (false, 1) := by
  refine ⟨fun s h => by simp [ui_kick, h], fun s h => by simp [ui_kick, h],
    fun s => rfl, by decide, by decide⟩
